import Mathlib

/-!
# Verification of the go-mongo-lib configuration-and-delegation layer

Shallow embedding of the two source files of the repository:

* connect.go — the Config record, the Connection tuning record, and
  Config.connect, which translates the configuration into driver client
  options, creates a driver client, connects (with a fixed timeout),
  pings, and returns a Client handle bound to the configured database.
* the client facade file — the Client record and the CRUD passthroughs
  CreateOne, ReadOne, UpdateOne, DeleteOne, Read, ReadWithProjection.

The external mongo driver is modelled as an oracle: a record of functions
giving the outcome of each driver call.  Driver data types that the source
constructs or inspects (ClientOptions, tls.Config, Credential, read and
write concerns, cursors, delete results) are modelled as Lean structures
with exactly the fields the source touches.  Durations are integers in
nanoseconds, as in Go time.Duration; millisecond values from the
configuration are multiplied by timeMillisecond exactly where the source
multiplies by time.Millisecond.
-/

namespace GoMongoLib

/-- Documents, queries/filters and projections are opaque values to this
layer (interface\x7b\x7d in the source); we model them as strings. -/
abbrev Doc := String

/-- A filter / query value, opaque to this layer. -/
abbrev Query := String

/-- Model of the Go time.Duration unit conversion: time.Millisecond in
nanoseconds. -/
def timeMillisecond : Int := 1000000

/-- Model of crypto/tls.Config, restricted to the single field the source
sets. -/
structure TLSConfig where
  insecureSkipVerify : Bool
deriving DecidableEq, Repr

/-- Model of the driver options.Credential, restricted to the fields the
source sets. -/
structure Credential where
  username : String
  password : String
  authSource : String
deriving DecidableEq, Repr

/-- Model of the driver readconcern.ReadConcern: a named level. -/
structure ReadConcern where
  level : String
deriving DecidableEq, Repr

/-- Driver function readconcern.Majority(): a read concern at level
"majority". -/
def readconcernMajority : ReadConcern := { level := "majority" }

/-- Driver method ReadConcern.GetLevel. -/
def ReadConcern.getLevel (rc : ReadConcern) : String := rc.level

/-- Driver function readconcern.New(readconcern.Level(l)). -/
def readconcernNew (l : String) : ReadConcern := { level := l }

/-- Model of the driver readpref read-preference modes used by the
source. -/
inductive ReadPrefMode where
  | primary
  | secondaryPreferred
deriving DecidableEq, Repr

/-- Driver function readpref.SecondaryPreferred(). -/
def readprefSecondaryPreferred : ReadPrefMode := ReadPrefMode.secondaryPreferred

/-- Driver function readpref.Primary(), used by the ping call. -/
def readprefPrimary : ReadPrefMode := ReadPrefMode.primary

/-- Model of the driver writeconcern.WriteConcern, restricted to the two
fields the source options can touch: the w value (WMajority sets the
string "majority") and the wTimeout duration in nanoseconds. -/
structure WriteConcern where
  w : Option String
  wTimeout : Option Int
deriving DecidableEq, Repr

/-- Model of the driver writeconcern.Option values used by the source. -/
inductive WCOption where
  | wMajority
  | wTimeoutOpt (d : Int)
deriving DecidableEq, Repr

/-- Applying one writeconcern.Option to a WriteConcern value. -/
def WCOption.applyTo : WCOption → WriteConcern → WriteConcern
  | WCOption.wMajority, wc => { wc with w := some "majority" }
  | WCOption.wTimeoutOpt d, wc => { wc with wTimeout := some d }

/-- Driver function writeconcern.New(opts...): applies the options to a
fresh zero-valued WriteConcern. -/
def writeconcernNew (opts : List WCOption) : WriteConcern :=
  opts.foldl (fun wc o => o.applyTo wc) { w := none, wTimeout := none }

/-- Driver method WriteConcern.WithOptions(opts...).  Per the driver
documented contract it returns a COPY of the receiver with the options
applied; it does not mutate the receiver. -/
def WriteConcern.withOptions (wc : WriteConcern) (opts : List WCOption) : WriteConcern :=
  opts.foldl (fun acc o => o.applyTo acc) wc

/-- Model of the driver options.ClientOptions, restricted to the fields
the source can set.  A none field is a field the source left unset, so the
driver default applies. -/
structure ClientOptions where
  hosts : List String := []
  tlsConfig : Option TLSConfig := none
  auth : Option Credential := none
  minPoolSize : Option Nat := none
  maxPoolSize : Option Nat := none
  maxConnecting : Option Nat := none
  maxConnIdleTime : Option Int := none
  serverSelectionTimeout : Option Int := none
  socketTimeout : Option Int := none
  timeout : Option Int := none
  readConcern : Option ReadConcern := none
  readPreference : Option ReadPrefMode := none
  writeConcern : Option WriteConcern := none
deriving DecidableEq, Repr

/-- Driver setter SetMinPoolSize. -/
def ClientOptions.setMinPoolSize (o : ClientOptions) (v : Nat) : ClientOptions :=
  { o with minPoolSize := some v }

/-- Driver setter SetMaxPoolSize. -/
def ClientOptions.setMaxPoolSize (o : ClientOptions) (v : Nat) : ClientOptions :=
  { o with maxPoolSize := some v }

/-- Driver setter SetMaxConnecting. -/
def ClientOptions.setMaxConnecting (o : ClientOptions) (v : Nat) : ClientOptions :=
  { o with maxConnecting := some v }

/-- Driver setter SetMaxConnIdleTime (duration in nanoseconds). -/
def ClientOptions.setMaxConnIdleTime (o : ClientOptions) (v : Int) : ClientOptions :=
  { o with maxConnIdleTime := some v }

/-- Driver setter SetServerSelectionTimeout (duration in nanoseconds). -/
def ClientOptions.setServerSelectionTimeout (o : ClientOptions) (v : Int) : ClientOptions :=
  { o with serverSelectionTimeout := some v }

/-- Driver setter SetSocketTimeout (duration in nanoseconds). -/
def ClientOptions.setSocketTimeout (o : ClientOptions) (v : Int) : ClientOptions :=
  { o with socketTimeout := some v }

/-- Driver setter SetTimeout (duration in nanoseconds). -/
def ClientOptions.setTimeout (o : ClientOptions) (v : Int) : ClientOptions :=
  { o with timeout := some v }

/-- Driver setter SetReadConcern. -/
def ClientOptions.setReadConcern (o : ClientOptions) (rc : ReadConcern) : ClientOptions :=
  { o with readConcern := some rc }

/-- Driver setter SetReadPreference. -/
def ClientOptions.setReadPreference (o : ClientOptions) (rp : ReadPrefMode) : ClientOptions :=
  { o with readPreference := some rp }

/-- Driver setter SetWriteConcern. -/
def ClientOptions.setWriteConcern (o : ClientOptions) (wc : WriteConcern) : ClientOptions :=
  { o with writeConcern := some wc }

/-- The Connection record of connect.go: additional client options.
uint64 fields become Nat, int millisecond fields become Int. -/
structure Connection where
  ReplicaSetName : String
  MinPoolSize : Nat
  MaxPoolSize : Nat
  MaxConnecting : Nat
  MaxConnIdleTime : Int
  ServerSelectionTimeout : Int
  SocketTimeout : Int
  Timeout : Int
  RetryReads : Bool
  RetryWrites : Bool
  ReadConcernWithMajority : Bool
  ReadSecondaryPreferred : Bool
  WriteConcernWithMajority : Bool
  WriteConcernTimeout : Int
deriving DecidableEq, Repr

/-- The Config record of connect.go.  The Go *Connection pointer becomes
Option Connection (nil = none). -/
structure Config where
  Hosts : List String
  AuthEnabled : Bool
  User : String
  Password : String
  AuthSource : String
  TLSEnabled : Bool
  Database : String
  Connection : Option Connection
deriving DecidableEq, Repr

/-- The options-building section of Config.connect (connect.go lines
61-143), translated statement by statement.  Note the WithOptions call on
the write concern: as in the source, its result is bound and discarded
(WithOptions returns a copy), so the write concern that is set never
carries a timeout. -/
def Config.buildClientOptions (c : Config) : ClientOptions :=
  let mongoConnOptions : ClientOptions := { hosts := c.Hosts }
  let mongoConnOptions :=
    if c.TLSEnabled then
      let tlsConfig : TLSConfig := { insecureSkipVerify := true }
      { mongoConnOptions with tlsConfig := some tlsConfig }
    else mongoConnOptions
  let mongoConnOptions :=
    if c.AuthEnabled then
      let creds : Credential :=
        { username := c.User, password := c.Password, authSource := c.AuthSource }
      { mongoConnOptions with auth := some creds }
    else mongoConnOptions
  match c.Connection with
  | none => mongoConnOptions
  | some conn =>
    let mongoConnOptions :=
      if conn.MinPoolSize ≠ 0 then mongoConnOptions.setMinPoolSize conn.MinPoolSize
      else mongoConnOptions
    let mongoConnOptions :=
      if conn.MaxPoolSize ≠ 0 then mongoConnOptions.setMaxPoolSize conn.MaxPoolSize
      else mongoConnOptions
    let mongoConnOptions :=
      if conn.MaxConnecting ≠ 0 then mongoConnOptions.setMaxConnecting conn.MaxConnecting
      else mongoConnOptions
    let mongoConnOptions :=
      if conn.MaxConnIdleTime ≠ 0 then
        mongoConnOptions.setMaxConnIdleTime (conn.MaxConnIdleTime * timeMillisecond)
      else mongoConnOptions
    let mongoConnOptions :=
      if conn.ServerSelectionTimeout ≠ 0 then
        mongoConnOptions.setServerSelectionTimeout (conn.ServerSelectionTimeout * timeMillisecond)
      else mongoConnOptions
    let mongoConnOptions :=
      if conn.SocketTimeout ≠ 0 then
        mongoConnOptions.setSocketTimeout (conn.SocketTimeout * timeMillisecond)
      else mongoConnOptions
    let mongoConnOptions :=
      if conn.Timeout ≠ 0 then
        mongoConnOptions.setTimeout (conn.Timeout * timeMillisecond)
      else mongoConnOptions
    let mongoConnOptions :=
      if conn.ReadConcernWithMajority then
        let majorityLevel := readconcernMajority.getLevel
        let rc := readconcernNew majorityLevel
        mongoConnOptions.setReadConcern rc
      else mongoConnOptions
    let mongoConnOptions :=
      if conn.ReadSecondaryPreferred then
        let rp := readprefSecondaryPreferred
        mongoConnOptions.setReadPreference rp
      else mongoConnOptions
    let mongoConnOptions :=
      if conn.WriteConcernWithMajority then
        let wc := writeconcernNew [WCOption.wMajority]
        let _discarded :=
          if conn.WriteConcernTimeout ≠ 0 then
            wc.withOptions [WCOption.wTimeoutOpt (conn.WriteConcernTimeout * timeMillisecond)]
          else wc
        mongoConnOptions.setWriteConcern wc
      else mongoConnOptions
    mongoConnOptions

/-- The error values a driver operation can return.  The noDocuments
constructor is the driver distinguished mongo.ErrNoDocuments sentinel;
other carries any other driver error text. -/
inductive MongoError where
  | noDocuments
  | other (msg : String)
deriving DecidableEq, Repr

/-- Model of a driver cursor (mongo.Cursor): the data determining what its
All method decodes.  An error outcome models a mid-way decoding failure. -/
structure Cursor where
  allResult : Except MongoError (List Doc)

/-- Model of the driver mongo.DeleteResult, restricted to the field the
source reads. -/
structure DeleteResult where
  DeletedCount : Int
deriving DecidableEq, Repr

/-- Model of the driver options.FindOptions, restricted to the field the
source sets. -/
structure FindOptions where
  projection : Option Query := none

/-- Driver function options.Find(). -/
def optionsFind : FindOptions := {}

/-- Driver setter FindOptions.SetProjection. -/
def FindOptions.setProjection (o : FindOptions) (p : Query) : FindOptions :=
  { o with projection := some p }

/-- Oracle for one driver collection handle (mongo.Collection): the
outcome of each driver call the facade makes, as a function of the
arguments the facade forwards.  findOne models the combined
FindOne(ctx, query).Decode(&res) step; find takes the list of FindOptions
the source passes variadically. -/
structure DriverColl where
  insertOne : Doc → Except MongoError Unit
  findOne : Query → Except MongoError Doc
  updateOne : Query → Doc → Except MongoError Unit
  deleteOne : Query → Except MongoError DeleteResult
  find : Query → List FindOptions → Except MongoError Cursor

/-- Oracle for one driver database handle (mongo.Database): its name and
its Collection method. -/
structure DriverDB where
  name : String
  collection : String → DriverColl

/-- The Client record of the facade file: it holds one driver database
handle. -/
structure Client where
  database : DriverDB

/-- Oracle for the driver calls Config.connect makes after building the
options: mongo.NewClient (whose outcome may depend on the options), the
Connect call, the Ping call, and the Database method of the client. -/
structure MongoDriver where
  newClientError : ClientOptions → Option String
  connectError : Option String
  pingError : Option String
  database : String → DriverDB

/-- The wrapping connect.go applies to a failed Connect call:
errors.New("client connection failed " + err.Error()). -/
def connectFailMsg (e : String) : String := "client connection failed " ++ e

/-- The wrapping connect.go applies to a failed Ping call:
errors.New("client ping failed ->" + err.Error()). -/
def pingFailMsg (e : String) : String := "client ping failed ->" ++ e

/-- Config.connect (connect.go lines 59-170): builds the options, creates
the driver client, connects (the fixed 10-second context timeout is part
of the driver-call outcome and not modelled separately), pings with
readpref.Primary(), and on success returns a Client holding the driver
database handle for the configured database name.  The Go pair
(dbClient *Client, err error) becomes Option Client × Option String. -/
def Config.connect (c : Config) (drv : MongoDriver) : Option Client × Option String :=
  let mongoConnOptions := c.buildClientOptions
  match drv.newClientError mongoConnOptions with
  | some e => (none, some e)
  | none =>
    match drv.connectError with
    | some e => (none, some (connectFailMsg e))
    | none =>
      match drv.pingError with
      | some e => (none, some (pingFailMsg e))
      | none => (some { database := drv.database c.Database }, none)

/-- New (connect.go lines 47-56): delegates to Config.connect and forwards
its result, returning nil for the handle whenever connect errored. -/
def New (config : Config) (drv : MongoDriver) : Option Client × Option String :=
  match config.connect drv with
  | (_, some e) => (none, some e)
  | (dbClient, none) => (dbClient, none)

/-- Client.CreateOne: forwards to InsertOne, discarding the result and
propagating any error unchanged. -/
def Client.CreateOne (c : Client) (collection : String) (document : Doc) :
    Option MongoError :=
  match (c.database.collection collection).insertOne document with
  | Except.error err => some err
  | Except.ok _ => none

/-- Client.ReadOne: forwards to FindOne + Decode; the driver
mongo.ErrNoDocuments sentinel is translated to (nil, nil); any other error
is propagated; on success the decoded document is returned. -/
def Client.ReadOne (c : Client) (collection : String) (query : Query) :
    Option Doc × Option MongoError :=
  match (c.database.collection collection).findOne query with
  | Except.error err =>
    if err = MongoError.noDocuments then (none, none)
    else (none, some err)
  | Except.ok res => (some res, none)

/-- Client.UpdateOne: forwards to the driver, discarding the result and
propagating any error unchanged. -/
def Client.UpdateOne (c : Client) (collection : String) (query : Query) (fields : Doc) :
    Option MongoError :=
  match (c.database.collection collection).updateOne query fields with
  | Except.error err => some err
  | Except.ok _ => none

/-- Client.DeleteOne: forwards to the driver; on error returns (0, err),
otherwise the driver DeletedCount and no error. -/
def Client.DeleteOne (c : Client) (collection : String) (query : Query) :
    Int × Option MongoError :=
  match (c.database.collection collection).deleteOne query with
  | Except.error err => (0, some err)
  | Except.ok result => (result.DeletedCount, none)

/-- Result of Client.Read / Client.ReadWithProjection, instrumented with
the number of times the Close method of the cursor ran before the call
returned.  The source defers cursor.Close right after a successful Find,
so Close runs exactly once on every subsequent exit path; when Find itself
fails no cursor exists and closeCount is 0. -/
structure ReadResult where
  res : Option (List Doc)
  err : Option MongoError
  closeCount : Nat
deriving Repr

/-- Client.Read: Find with no options, defer cursor.Close, cursor.All,
then an empty slice is normalized to (nil, nil). -/
def Client.Read (c : Client) (collection : String) (query : Query) : ReadResult :=
  match (c.database.collection collection).find query [] with
  | Except.error err => { res := none, err := some err, closeCount := 0 }
  | Except.ok cursor =>
    match cursor.allResult with
    | Except.error e => { res := none, err := some e, closeCount := 1 }
    | Except.ok res =>
      if res.length = 0 then { res := none, err := none, closeCount := 1 }
      else { res := some res, err := none, closeCount := 1 }

/-- Client.ReadWithProjection: identical to Read except the Find call
passes options.Find().SetProjection(projection). -/
def Client.ReadWithProjection (c : Client) (collection : String) (query : Query)
    (projection : Query) : ReadResult :=
  match (c.database.collection collection).find query [optionsFind.setProjection projection] with
  | Except.error err => { res := none, err := some err, closeCount := 0 }
  | Except.ok cursor =>
    match cursor.allResult with
    | Except.error e => { res := none, err := some e, closeCount := 1 }
    | Except.ok res =>
      if res.length = 0 then { res := none, err := none, closeCount := 1 }
      else { res := some res, err := none, closeCount := 1 }

/-! ## Concrete fixtures used to instantiate the theorems -/

/-- A concrete collection oracle: FindOne reports the no-documents
sentinel, Find succeeds with a cursor that decodes to an empty slice,
DeleteOne fails with a transport error. -/
def noDocsColl : DriverColl where
  insertOne := fun _ => Except.ok ()
  findOne := fun _ => Except.error MongoError.noDocuments
  updateOne := fun _ _ => Except.ok ()
  deleteOne := fun _ => Except.error (MongoError.other "connection reset")
  find := fun _ _ => Except.ok { allResult := Except.ok [] }

/-- A client whose every collection behaves like noDocsColl. -/
def noDocsClient : Client where
  database := { name := "testdb", collection := fun _ => noDocsColl }

/-- A collection oracle whose DeleteOne succeeds, reporting one deleted
document. -/
def deleteOkColl : DriverColl where
  insertOne := fun _ => Except.ok ()
  findOne := fun _ => Except.error MongoError.noDocuments
  updateOne := fun _ _ => Except.ok ()
  deleteOne := fun _ => Except.ok { DeletedCount := 1 }
  find := fun _ _ => Except.ok { allResult := Except.ok [] }

/-- A client whose every collection behaves like deleteOkColl. -/
def deleteOkClient : Client where
  database := { name := "testdb", collection := fun _ => deleteOkColl }

/-- A driver oracle for which client creation, Connect and Ping all
succeed. -/
def okDriver : MongoDriver where
  newClientError := fun _ => none
  connectError := none
  pingError := none
  database := fun n => { name := n, collection := fun _ => noDocsColl }

/-- A driver oracle whose Connect call fails with a transport error. -/
def connectFailDriver : MongoDriver where
  newClientError := fun _ => none
  connectError := some "i/o timeout"
  pingError := none
  database := fun n => { name := n, collection := fun _ => noDocsColl }

/-- A driver oracle that connects but whose Ping fails with the same
transport error text. -/
def pingFailDriver : MongoDriver where
  newClientError := fun _ => none
  connectError := none
  pingError := some "i/o timeout"
  database := fun n => { name := n, collection := fun _ => noDocsColl }

/-- A tuning record requesting majority write concern together with a
5000 ms write-concern timeout; every other field zero or false. -/
def wcTimeoutConnection : Connection where
  ReplicaSetName := ""
  MinPoolSize := 0
  MaxPoolSize := 0
  MaxConnecting := 0
  MaxConnIdleTime := 0
  ServerSelectionTimeout := 0
  SocketTimeout := 0
  Timeout := 0
  RetryReads := false
  RetryWrites := false
  ReadConcernWithMajority := false
  ReadSecondaryPreferred := false
  WriteConcernWithMajority := true
  WriteConcernTimeout := 5000

/-- A configuration carrying wcTimeoutConnection. -/
def wcTimeoutConfig : Config where
  Hosts := ["localhost:27017"]
  AuthEnabled := false
  User := ""
  Password := ""
  AuthSource := ""
  TLSEnabled := false
  Database := "testdb"
  Connection := some wcTimeoutConnection

/-- A tuning record mixing zero and non-zero tuning fields. -/
def mixedConnection : Connection where
  ReplicaSetName := ""
  MinPoolSize := 0
  MaxPoolSize := 50
  MaxConnecting := 0
  MaxConnIdleTime := 30000
  ServerSelectionTimeout := 0
  SocketTimeout := 15000
  Timeout := 0
  RetryReads := false
  RetryWrites := false
  ReadConcernWithMajority := false
  ReadSecondaryPreferred := false
  WriteConcernWithMajority := false
  WriteConcernTimeout := 0

/-- A configuration carrying mixedConnection. -/
def mixedConfig : Config where
  Hosts := ["localhost:27017"]
  AuthEnabled := false
  User := ""
  Password := ""
  AuthSource := ""
  TLSEnabled := false
  Database := "testdb"
  Connection := some mixedConnection

/-- A configuration with authentication disabled, a populated credential
triple and no tuning record. -/
def authOffConfigA : Config where
  Hosts := ["h1:27017"]
  AuthEnabled := false
  User := "alice"
  Password := "secret1"
  AuthSource := "admin"
  TLSEnabled := true
  Database := "appdb"
  Connection := none

/-- authOffConfigA with a different credential triple and nothing else
changed. -/
def authOffConfigB : Config :=
  { authOffConfigA with User := "bob", Password := "secret2", AuthSource := "other" }

/-! ## Characterization of the built client options -/

attribute [ext] ClientOptions

set_option maxRecDepth 8192 in
/-- When the configuration carries no tuning record, the built options set
only hosts, the TLS configuration and the credentials; every other field
keeps its unset default. -/
theorem buildClientOptions_none (c : Config) (hc : c.Connection = none) :
    c.buildClientOptions =
      { hosts := c.Hosts
        tlsConfig := if c.TLSEnabled then some { insecureSkipVerify := true } else none
        auth := if c.AuthEnabled then
            some { username := c.User, password := c.Password, authSource := c.AuthSource }
          else none } := by
  unfold Config.buildClientOptions
  rw [hc]
  ext <;>
    simp only [apply_ite ClientOptions.hosts, apply_ite ClientOptions.tlsConfig,
      apply_ite ClientOptions.auth, apply_ite ClientOptions.minPoolSize,
      apply_ite ClientOptions.maxPoolSize, apply_ite ClientOptions.maxConnecting,
      apply_ite ClientOptions.maxConnIdleTime, apply_ite ClientOptions.serverSelectionTimeout,
      apply_ite ClientOptions.socketTimeout, apply_ite ClientOptions.timeout,
      apply_ite ClientOptions.readConcern, apply_ite ClientOptions.readPreference,
      apply_ite ClientOptions.writeConcern, ite_self]

set_option maxRecDepth 8192 in
/-- When the configuration carries a tuning record, each tuning option is
set exactly when the corresponding field is non-zero (respectively true),
millisecond fields are converted to nanosecond durations, and the write
concern that is set never carries a timeout: the copy returned by
WithOptions is discarded, as in the source. -/
theorem buildClientOptions_some (c : Config) (conn : Connection)
    (hc : c.Connection = some conn) :
    c.buildClientOptions =
      { hosts := c.Hosts
        tlsConfig := if c.TLSEnabled then some { insecureSkipVerify := true } else none
        auth := if c.AuthEnabled then
            some { username := c.User, password := c.Password, authSource := c.AuthSource }
          else none
        minPoolSize := if conn.MinPoolSize ≠ 0 then some conn.MinPoolSize else none
        maxPoolSize := if conn.MaxPoolSize ≠ 0 then some conn.MaxPoolSize else none
        maxConnecting := if conn.MaxConnecting ≠ 0 then some conn.MaxConnecting else none
        maxConnIdleTime := if conn.MaxConnIdleTime ≠ 0 then
            some (conn.MaxConnIdleTime * timeMillisecond) else none
        serverSelectionTimeout := if conn.ServerSelectionTimeout ≠ 0 then
            some (conn.ServerSelectionTimeout * timeMillisecond) else none
        socketTimeout := if conn.SocketTimeout ≠ 0 then
            some (conn.SocketTimeout * timeMillisecond) else none
        timeout := if conn.Timeout ≠ 0 then some (conn.Timeout * timeMillisecond) else none
        readConcern := if conn.ReadConcernWithMajority then some { level := "majority" } else none
        readPreference := if conn.ReadSecondaryPreferred then
            some ReadPrefMode.secondaryPreferred else none
        writeConcern := if conn.WriteConcernWithMajority then
            some { w := some "majority", wTimeout := none } else none } := by
  unfold Config.buildClientOptions
  rw [hc]
  ext <;>
    simp only [apply_ite ClientOptions.hosts, apply_ite ClientOptions.tlsConfig,
      apply_ite ClientOptions.auth, apply_ite ClientOptions.minPoolSize,
      apply_ite ClientOptions.maxPoolSize, apply_ite ClientOptions.maxConnecting,
      apply_ite ClientOptions.maxConnIdleTime, apply_ite ClientOptions.serverSelectionTimeout,
      apply_ite ClientOptions.socketTimeout, apply_ite ClientOptions.timeout,
      apply_ite ClientOptions.readConcern, apply_ite ClientOptions.readPreference,
      apply_ite ClientOptions.writeConcern, ClientOptions.setMinPoolSize,
      ClientOptions.setMaxPoolSize, ClientOptions.setMaxConnecting,
      ClientOptions.setMaxConnIdleTime, ClientOptions.setServerSelectionTimeout,
      ClientOptions.setSocketTimeout, ClientOptions.setTimeout,
      ClientOptions.setReadConcern, ClientOptions.setReadPreference,
      ClientOptions.setWriteConcern, writeconcernNew, readconcernNew,
      readconcernMajority, ReadConcern.getLevel, readprefSecondaryPreferred,
      WCOption.applyTo, List.foldl_cons, List.foldl_nil, ite_self]

/-! ## Claim theorems -/

/-- C1: for every collection and filter, when the driver reports that zero
documents match — the no-documents sentinel on ReadOne, an empty decoded
slice on Read and ReadWithProjection — each call returns an absent result
and no error. -/
theorem readOne_read_zero_documents_absent_no_error
    (c : Client) (collection : String) (query projection : Query)
    (cur1 cur2 : Cursor)
    (h1 : (c.database.collection collection).findOne query =
      Except.error MongoError.noDocuments)
    (h2 : (c.database.collection collection).find query [] = Except.ok cur1)
    (h3 : cur1.allResult = Except.ok [])
    (h4 : (c.database.collection collection).find query
      [optionsFind.setProjection projection] = Except.ok cur2)
    (h5 : cur2.allResult = Except.ok []) :
    c.ReadOne collection query = (none, none) ∧
    (c.Read collection query).res = none ∧ (c.Read collection query).err = none ∧
    (c.ReadWithProjection collection query projection).res = none ∧
    (c.ReadWithProjection collection query projection).err = none := by
  unfold Client.ReadOne Client.Read Client.ReadWithProjection
  rw [h1, h2, h4]
  simp [h3, h5]

/-- Witness for C1 at a concrete client, collection and filter. -/
theorem readOne_read_zero_documents_absent_no_error_witness :
    Client.ReadOne noDocsClient "widgets" "q" = (none, none) ∧
    (Client.Read noDocsClient "widgets" "q").res = none ∧
    (Client.Read noDocsClient "widgets" "q").err = none ∧
    (Client.ReadWithProjection noDocsClient "widgets" "q" "p").res = none ∧
    (Client.ReadWithProjection noDocsClient "widgets" "q" "p").err = none :=
  readOne_read_zero_documents_absent_no_error noDocsClient "widgets" "q" "p"
    { allResult := Except.ok [] } { allResult := Except.ok [] } rfl rfl rfl rfl rfl

/-- C2 (code bug in the source): on a configuration requesting majority
write concern together with a 5000 ms write-concern timeout, the write
concern placed in the built options carries no timeout, because the source
discards the copy returned by WithOptions.  The second conjunct shows the
write concern the discarded WithOptions call produced, which does carry
the intended timeout. -/
theorem writeConcernTimeout_never_attached :
    (wcTimeoutConfig.buildClientOptions).writeConcern =
      some { w := some "majority", wTimeout := none } ∧
    WriteConcern.withOptions (writeconcernNew [WCOption.wMajority])
        [WCOption.wTimeoutOpt (5000 * timeMillisecond)] =
      { w := some "majority", wTimeout := some (5000 * timeMillisecond) } := by
  constructor
  · rw [buildClientOptions_some wcTimeoutConfig wcTimeoutConnection rfl]
    rfl
  · rfl

/-- C3: with a tuning record present, each of the seven numeric tuning
options is set exactly when the corresponding field is non-zero, and then
to the value of that field (milliseconds converted to a nanosecond duration);
a zero-valued field is left entirely unset. -/
theorem connection_tuning_zero_fields_unset (c : Config) (conn : Connection)
    (hc : c.Connection = some conn) :
    (c.buildClientOptions).minPoolSize =
      (if conn.MinPoolSize ≠ 0 then some conn.MinPoolSize else none) ∧
    (c.buildClientOptions).maxPoolSize =
      (if conn.MaxPoolSize ≠ 0 then some conn.MaxPoolSize else none) ∧
    (c.buildClientOptions).maxConnecting =
      (if conn.MaxConnecting ≠ 0 then some conn.MaxConnecting else none) ∧
    (c.buildClientOptions).maxConnIdleTime =
      (if conn.MaxConnIdleTime ≠ 0 then some (conn.MaxConnIdleTime * timeMillisecond) else none) ∧
    (c.buildClientOptions).serverSelectionTimeout =
      (if conn.ServerSelectionTimeout ≠ 0 then
        some (conn.ServerSelectionTimeout * timeMillisecond) else none) ∧
    (c.buildClientOptions).socketTimeout =
      (if conn.SocketTimeout ≠ 0 then some (conn.SocketTimeout * timeMillisecond) else none) ∧
    (c.buildClientOptions).timeout =
      (if conn.Timeout ≠ 0 then some (conn.Timeout * timeMillisecond) else none) := by
  rw [buildClientOptions_some c conn hc]
  exact ⟨rfl, rfl, rfl, rfl, rfl, rfl, rfl⟩

/-- Witness for C3 at a configuration mixing zero and non-zero tuning
fields. -/
theorem connection_tuning_zero_fields_unset_witness :
    (mixedConfig.buildClientOptions).minPoolSize = none ∧
    (mixedConfig.buildClientOptions).maxPoolSize = some 50 ∧
    (mixedConfig.buildClientOptions).maxConnecting = none ∧
    (mixedConfig.buildClientOptions).maxConnIdleTime = some (30000 * timeMillisecond) ∧
    (mixedConfig.buildClientOptions).serverSelectionTimeout = none ∧
    (mixedConfig.buildClientOptions).socketTimeout = some (15000 * timeMillisecond) ∧
    (mixedConfig.buildClientOptions).timeout = none :=
  connection_tuning_zero_fields_unset mixedConfig mixedConnection rfl

/-- C4: connect returns a non-nil handle exactly when client creation,
Connect and Ping all succeed; any handle it returns is the driver database
handle for the configured database name, with no error; and New forwards
the result of connect unchanged, so every failure path yields a nil
handle. -/
theorem connect_handle_iff_all_succeed (c : Config) (drv : MongoDriver) :
    ((c.connect drv).1 ≠ none ↔
      drv.newClientError c.buildClientOptions = none ∧
      drv.connectError = none ∧ drv.pingError = none) ∧
    (∀ cl, (c.connect drv).1 = some cl →
      cl = { database := drv.database c.Database } ∧ (c.connect drv).2 = none) ∧
    New c drv = c.connect drv := by
  unfold New Config.connect
  cases hn : drv.newClientError c.buildClientOptions <;>
    cases hcn : drv.connectError <;>
      cases hp : drv.pingError <;> simp_all

/-- Witness for C4: an all-success driver yields the bound handle and no
error. -/
theorem connect_handle_iff_all_succeed_witness :
    ({ database := okDriver.database wcTimeoutConfig.Database } : Client) =
      { database := okDriver.database wcTimeoutConfig.Database } ∧
    (wcTimeoutConfig.connect okDriver).2 = none :=
  (connect_handle_iff_all_succeed wcTimeoutConfig okDriver).2.1
    { database := okDriver.database wcTimeoutConfig.Database } rfl

/-- C5: a Connect failure and a Ping failure surface from connect as
distinguishable wrapped errors, and the two wrappings can never collide,
even when the underlying driver error text is identical. -/
theorem connect_phase_errors_distinguishable (c : Config) (drv : MongoDriver)
    (e : String) (hn : drv.newClientError c.buildClientOptions = none) :
    (drv.connectError = some e → (c.connect drv).2 = some (connectFailMsg e)) ∧
    (drv.connectError = none → drv.pingError = some e →
      (c.connect drv).2 = some (pingFailMsg e)) ∧
    ∀ e1 e2 : String, connectFailMsg e1 ≠ pingFailMsg e2 := by
  refine ⟨?_, ?_, ?_⟩
  · intro hce
    unfold Config.connect
    simp [hn, hce]
  · intro hce hpe
    unfold Config.connect
    simp [hn, hce, hpe]
  · intro e1 e2 h
    have hd : "client connection failed ".data ++ e1.data =
        "client ping failed ->".data ++ e2.data := by
      have h2 := congrArg String.data h
      simp only [connectFailMsg, pingFailMsg, String.data_append] at h2
      exact h2
    have h7 : ("client connection failed ".data ++ e1.data)[7]? =
        ("client ping failed ->".data ++ e2.data)[7]? := by rw [hd]
    rw [List.getElem?_append, List.getElem?_append,
      if_pos (by decide), if_pos (by decide)] at h7
    exact absurd h7 (by decide)

/-- Witness for C5: both failure phases at a concrete configuration with
identical underlying error text, and the resulting messages differ. -/
theorem connect_phase_errors_distinguishable_witness :
    (wcTimeoutConfig.connect connectFailDriver).2 = some (connectFailMsg "i/o timeout") ∧
    (wcTimeoutConfig.connect pingFailDriver).2 = some (pingFailMsg "i/o timeout") ∧
    connectFailMsg "i/o timeout" ≠ pingFailMsg "i/o timeout" :=
  ⟨(connect_phase_errors_distinguishable wcTimeoutConfig connectFailDriver
      "i/o timeout" rfl).1 rfl,
   (connect_phase_errors_distinguishable wcTimeoutConfig pingFailDriver
      "i/o timeout" rfl).2.1 rfl rfl,
   (connect_phase_errors_distinguishable wcTimeoutConfig pingFailDriver
      "i/o timeout" rfl).2.2 "i/o timeout" "i/o timeout"⟩

/-- C6: with authentication disabled, two configurations that agree on
every field other than the credential triple build identical options, and
those options carry no credential object. -/
theorem auth_disabled_credentials_not_observable (c1 c2 : Config)
    (hHosts : c1.Hosts = c2.Hosts) (hAuth : c1.AuthEnabled = c2.AuthEnabled)
    (hTLS : c1.TLSEnabled = c2.TLSEnabled) (_hDB : c1.Database = c2.Database)
    (hConn : c1.Connection = c2.Connection) (hOff : c1.AuthEnabled = false) :
    c1.buildClientOptions = c2.buildClientOptions ∧
    (c1.buildClientOptions).auth = none := by
  have hOff2 : c2.AuthEnabled = false := hAuth ▸ hOff
  cases hc : c2.Connection with
  | none =>
    rw [buildClientOptions_none c1 (hConn.trans hc), buildClientOptions_none c2 hc]
    constructor
    · simp [hHosts, hTLS, hOff, hOff2]
    · simp [hOff]
  | some conn =>
    rw [buildClientOptions_some c1 conn (hConn.trans hc), buildClientOptions_some c2 conn hc]
    constructor
    · simp [hHosts, hTLS, hOff, hOff2]
    · simp [hOff]

/-- Witness for C6 at two concrete configurations differing exactly in
user, password and auth source. -/
theorem auth_disabled_credentials_not_observable_witness :
    authOffConfigA.buildClientOptions = authOffConfigB.buildClientOptions ∧
    (authOffConfigA.buildClientOptions).auth = none :=
  auth_disabled_credentials_not_observable authOffConfigA authOffConfigB
    rfl rfl rfl rfl rfl rfl

/-- C7: the built options carry a TLS configuration exactly when
TLSEnabled is true, and that configuration always has certificate
verification disabled (InsecureSkipVerify true). -/
theorem tls_config_iff_enabled (c : Config) :
    (c.buildClientOptions).tlsConfig =
      (if c.TLSEnabled then some { insecureSkipVerify := true } else none) := by
  cases hc : c.Connection with
  | none => rw [buildClientOptions_none c hc]
  | some conn => rw [buildClientOptions_some c conn hc]

/-- C8: whenever Find hands Read or ReadWithProjection a cursor, the
cursor is closed exactly once before the call returns, on the success,
empty-result and decode-failure paths alike. -/
theorem read_cursor_closed_exactly_once (c : Client) (collection : String)
    (query projection : Query) (cur1 cur2 : Cursor)
    (h1 : (c.database.collection collection).find query [] = Except.ok cur1)
    (h2 : (c.database.collection collection).find query
        [optionsFind.setProjection projection] = Except.ok cur2) :
    (c.Read collection query).closeCount = 1 ∧
    (c.ReadWithProjection collection query projection).closeCount = 1 := by
  constructor
  · unfold Client.Read
    rw [h1]
    cases hr : cur1.allResult <;>
      simp [hr, apply_ite ReadResult.closeCount, ite_self]
  · unfold Client.ReadWithProjection
    rw [h2]
    cases hr : cur2.allResult <;>
      simp [hr, apply_ite ReadResult.closeCount, ite_self]

/-- Witness for C8 at a concrete client whose Find yields a cursor. -/
theorem read_cursor_closed_exactly_once_witness :
    (Client.Read noDocsClient "widgets" "q").closeCount = 1 ∧
    (Client.ReadWithProjection noDocsClient "widgets" "q" "p").closeCount = 1 :=
  read_cursor_closed_exactly_once noDocsClient "widgets" "q" "p"
    { allResult := Except.ok [] } { allResult := Except.ok [] } rfl rfl

/-- C9: with no tuning record, connect sets no pool, timeout or concern
option at all — every tuning-derived option field keeps its unset default —
while the hosts are still carried over. -/
theorem connection_nil_no_tuning_options (c : Config) (hc : c.Connection = none) :
    (c.buildClientOptions).minPoolSize = none ∧
    (c.buildClientOptions).maxPoolSize = none ∧
    (c.buildClientOptions).maxConnecting = none ∧
    (c.buildClientOptions).maxConnIdleTime = none ∧
    (c.buildClientOptions).serverSelectionTimeout = none ∧
    (c.buildClientOptions).socketTimeout = none ∧
    (c.buildClientOptions).timeout = none ∧
    (c.buildClientOptions).readConcern = none ∧
    (c.buildClientOptions).readPreference = none ∧
    (c.buildClientOptions).writeConcern = none ∧
    (c.buildClientOptions).hosts = c.Hosts := by
  rw [buildClientOptions_none c hc]
  exact ⟨rfl, rfl, rfl, rfl, rfl, rfl, rfl, rfl, rfl, rfl, rfl⟩

/-- Witness for C9 at a concrete configuration whose tuning record is
absent. -/
theorem connection_nil_no_tuning_options_witness :
    (authOffConfigA.buildClientOptions).minPoolSize = none ∧
    (authOffConfigA.buildClientOptions).maxPoolSize = none ∧
    (authOffConfigA.buildClientOptions).maxConnecting = none ∧
    (authOffConfigA.buildClientOptions).maxConnIdleTime = none ∧
    (authOffConfigA.buildClientOptions).serverSelectionTimeout = none ∧
    (authOffConfigA.buildClientOptions).socketTimeout = none ∧
    (authOffConfigA.buildClientOptions).timeout = none ∧
    (authOffConfigA.buildClientOptions).readConcern = none ∧
    (authOffConfigA.buildClientOptions).readPreference = none ∧
    (authOffConfigA.buildClientOptions).writeConcern = none ∧
    (authOffConfigA.buildClientOptions).hosts = authOffConfigA.Hosts :=
  connection_nil_no_tuning_options authOffConfigA rfl

/-- C10: DeleteOne returns (0, err) on every driver error and the driver
deleted-document count with no error otherwise; in particular the count is
0 whenever the error output is non-nil. -/
theorem deleteOne_count_zero_on_error (c : Client) (collection : String)
    (query : Query) :
    (∀ e, (c.database.collection collection).deleteOne query = Except.error e →
      c.DeleteOne collection query = (0, some e)) ∧
    (∀ r, (c.database.collection collection).deleteOne query = Except.ok r →
      c.DeleteOne collection query = (r.DeletedCount, none)) ∧
    ((c.DeleteOne collection query).2 ≠ none →
      (c.DeleteOne collection query).1 = 0) := by
  unfold Client.DeleteOne
  cases h : (c.database.collection collection).deleteOne query <;> simp [h]

/-- Witness for C10: a failing delete yields (0, err), a successful one
the driver count. -/
theorem deleteOne_count_zero_on_error_witness :
    Client.DeleteOne noDocsClient "widgets" "q" =
      (0, some (MongoError.other "connection reset")) ∧
    Client.DeleteOne deleteOkClient "widgets" "q" = (1, none) :=
  ⟨(deleteOne_count_zero_on_error noDocsClient "widgets" "q").1
      (MongoError.other "connection reset") rfl,
   (deleteOne_count_zero_on_error deleteOkClient "widgets" "q").2.1
      { DeletedCount := 1 } rfl⟩

end GoMongoLib
